import Mathlib

/-!
Shallow embedding of the book-review platform backend
(Express/TypeScript, `src/backend/src` plus the review routes, auth
middleware and crypto utilities), for checking the specification claims.

The document store is modelled as explicit lists of records; each route
handler becomes a pure function from the request data and the current
store to a response and the next store.  The cryptographic primitives
(bcrypt, sha256, the AES transport obfuscation, the JWT signature) are
replaced by concrete injective stand-ins: every claim under check
concerns control flow and field updates, not cryptographic strength, and
the stand-ins preserve exactly the interface the handlers use
(hash, compare, digest equality, sign/verify roundtrip).
-/

namespace BookReview

/-! ## Crypto stand-ins -/

/-- Stand-in for a bcrypt digest of `plain` (models `bcrypt.hash` in
`models/User.ts`; the random salt is elided — no claim depends on two
hashes of one password differing). Injective, and never equal to the
plaintext. -/
def bcryptHash (plain : String) : String := "bcrypt$" ++ plain

/-- Stand-in for `bcrypt.compare(plain, digest)` (used by
`userSchema.methods.matchPassword`): the digest verifies exactly when it
is the hash of the plaintext. -/
def bcryptCompare (plain digest : String) : Bool := digest == bcryptHash plain

/-- Stand-in for `crypto.createHash(sha256).update(s).digest(hex)`
(used in `routes/auth.ts` reset-password and in
`generatePasswordResetToken`). Injective one-way digest. -/
def sha256hex (s : String) : String := "sha256$" ++ s

/-- Stand-in for `decryptPassword` in the backend encryption utility:
AES-decrypts the transport-obfuscated password with the static shared
key, failing (throwing, here `none`) when the input is not a valid
ciphertext or decrypts to the empty string.  A valid ciphertext of `p`
is modelled as the string `enc$p`. -/
def decryptPassword (s : String) : Option String :=
  match s.data with
  | 'e' :: 'n' :: 'c' :: '$' :: rest =>
      if rest.isEmpty then none else some (String.mk rest)
  | _ => none

/-- Stand-in for the express-validator `isEmail` check: only its
pass/fail outcome matters to the claims. -/
def isEmail (s : String) : Bool := s.data.contains '@'

/-- Modelled from the spec: the repository module `src/utils/jwt.ts`
(`generateToken`) is not under `src/`; spec §4.2 Token Issuer:
`issue(subject)` embeds the subject, signed with the server secret, and
`verify(token)` yields the subject or Invalid.  The subject is encoded
in unary; token expiry is elided (no claim concerns session-token
expiry). -/
def generateToken (id : Nat) : String :=
  String.mk ('j' :: 'w' :: 't' :: '$' :: List.replicate id 'x')

/-- Modelled from the spec: verification half of the Token Issuer
(spec §4.2), as used by the `protect` middleware via `jwt.verify`. -/
def verifyToken (tok : String) : Option Nat :=
  match tok.data with
  | 'j' :: 'w' :: 't' :: '$' :: rest =>
      if rest.all (fun c => c == 'x') then some rest.length else none
  | _ => none

/-! ## Data model (`models/User.ts`, `models/Book.ts`, `models/Review.ts`) -/

/-- A persisted user record (`models/User.ts`): `password` holds the
bcrypt digest; the two reset fields are optional. Timestamps are elided
(no claim concerns them). -/
structure User where
  id : Nat
  name : String
  email : String
  password : String
  resetPasswordToken : Option String
  resetPasswordExpires : Option Nat
deriving DecidableEq, Repr

/-- A persisted book record (`models/Book.ts`); `addedBy` is the owning
user id, `createdAt` the creation timestamp used for list ordering. -/
structure Book where
  id : Nat
  title : String
  author : String
  description : String
  genre : String
  publishedYear : Nat
  addedBy : Nat
  createdAt : Nat
deriving DecidableEq, Repr

/-- A persisted review record (`models/Review.ts`). The schema declares
a unique index on `(bookId, userId)`. -/
structure Review where
  id : Nat
  bookId : Nat
  userId : Nat
  rating : Nat
  reviewText : String
deriving DecidableEq, Repr

/-! ## Auth middleware (`middleware/auth.ts`)

`protect` verifies the bearer token and resolves the user record;
`none` models the 401 Unauthenticated response.  The header parsing
(`Bearer ` prefix split) is elided: the argument is the presented
token, `none` when the header is absent. -/

def protect (token : Option String) (users : List User) : Option User :=
  match token with
  | none => none
  | some t =>
      match verifyToken t with
      | none => none
      | some id => users.find? (fun u => u.id == id)

/-! ## Auth routes (`routes/auth.ts`) -/

/-- Response of POST /api/auth/login: either an error with HTTP status
and message body, or the identity fields plus session token returned on
success. -/
inductive LoginResponse where
  | error (status : Nat) (message : String)
  | success (id : Nat) (name email token : String)
deriving DecidableEq, Repr

/-- POST /api/auth/login (`routes/auth.ts`): validate, decrypt the
transport-obfuscated password, look the user up by email and compare
the bcrypt hash; the user-not-found and wrong-password branches share
one response. -/
def login (email encPassword : String) (users : List User) : LoginResponse :=
  if !(isEmail email) then .error 400 "Validation errors"
  else
    match decryptPassword encPassword with
    | none => .error 400 "Invalid password format"
    | some plain =>
        match users.find? (fun u => u.email == email) with
        | some u =>
            if bcryptCompare plain u.password then
              .success u.id u.name u.email (generateToken u.id)
            else .error 401 "Invalid credentials"
        | none => .error 401 "Invalid credentials"

/-- Response of POST /api/auth/forgot-password: `ok message tok` is the
200 body (`tok` the `resetToken` field, present only in the
user-exists branch of the handler). -/
inductive ForgotResponse where
  | validationErrors
  | ok (message : String) (resetToken : Option String)
deriving DecidableEq, Repr

/-- POST /api/auth/forgot-password (`routes/auth.ts`): on a registered
email, `generatePasswordResetToken` (`models/User.ts`) stores the
sha256 of a fresh random token (`randTok`, passed explicitly here) with
a 10-minute expiry and the handler returns the plaintext token; on an
unknown email it returns the generic message.  The save runs the
pre-save hook with the password path unmodified; the hook lacks an
early return after `next`, but the document was loaded without the
password field (`select: false`) so the stray re-hash attempt rejects
inside bcrypt after `next` has already fired and the hook library
(kareem) drops the late error — effectively the password path is
untouched, which is how the hook is embedded here. -/
def forgotPassword (email : String) (now : Nat) (randTok : String)
    (users : List User) : ForgotResponse × List User :=
  if !(isEmail email) then (.validationErrors, users)
  else
    match users.find? (fun u => u.email == email) with
    | none =>
        (.ok "If an account with that email exists, a password reset link has been sent." none,
         users)
    | some u =>
        let u2 : User :=
          { u with resetPasswordToken := some (sha256hex randTok),
                   resetPasswordExpires := some (now + 10 * 60 * 1000) }
        (.ok "Password reset token generated" (some randTok),
         users.map (fun v => if v.id == u.id then u2 else v))

/-- Response of PUT /api/auth/change-password. -/
inductive ChangeResponse where
  | validationErrors
  | invalidPasswordFormat
  | userNotFound
  | currentIncorrect
  | ok
deriving DecidableEq, Repr

/-- PUT /api/auth/change-password (`routes/auth.ts`), after `protect`
resolved `actorId`: validate the new password length (express-validator
runs on the encrypted field), decrypt both passwords, load the user,
compare the current password, then assign the new plaintext and save —
the pre-save hook re-hashes since the password path is modified.  The
handler has no check comparing the new password with the current
one. -/
def changePassword (actorId : Nat) (encCurrent encNew : String)
    (users : List User) : ChangeResponse × List User :=
  if encNew.length < 6 then (.validationErrors, users)
  else
    match decryptPassword encCurrent, decryptPassword encNew with
    | some pc, some pn =>
        match users.find? (fun v => v.id == actorId) with
        | none => (.userNotFound, users)
        | some u =>
            if bcryptCompare pc u.password then
              let u2 : User := { u with password := bcryptHash pn }
              (.ok, users.map (fun v => if v.id == u.id then u2 else v))
            else (.currentIncorrect, users)
    | _, _ => (.invalidPasswordFormat, users)

/-- Response of PUT /api/auth/reset-password/:token. -/
inductive ResetResponse where
  | validationErrors
  | invalidPasswordFormat
  | invalidOrExpired
  | success (id : Nat) (name email token : String)
deriving DecidableEq, Repr

/-- Whether a reset response is the 200 success body. -/
def ResetResponse.isSuccess : ResetResponse → Bool
  | .success _ _ _ _ => true
  | _ => false

/-- The `findOne` filter of the reset-password handler: stored token
hash equals the sha256 of the URL token and the stored expiry is
strictly in the future (`resetPasswordExpires: { $gt: Date.now() }`). -/
def resetMatcher (tokenParam : String) (now : Nat) (u : User) : Bool :=
  u.resetPasswordToken == some (sha256hex tokenParam)
  && (match u.resetPasswordExpires with
      | some e => decide (now < e)
      | none => false)

/-- PUT /api/auth/reset-password/:token (`routes/auth.ts`): validate
the password field, decrypt it, hash the URL token with sha256 and look
for a user whose stored reset hash matches with an unexpired expiry; on
success store the new password (pre-save hook hashes it), clear both
reset fields and issue a fresh session token. -/
def resetPassword (tokenParam encPassword : String) (now : Nat)
    (users : List User) : ResetResponse × List User :=
  if encPassword.length < 6 then (.validationErrors, users)
  else
    match decryptPassword encPassword with
    | none => (.invalidPasswordFormat, users)
    | some plain =>
        match users.find? (resetMatcher tokenParam now) with
        | none => (.invalidOrExpired, users)
        | some u =>
            let u2 : User :=
              { u with password := bcryptHash plain,
                       resetPasswordToken := none,
                       resetPasswordExpires := none }
            (.success u.id u.name u.email (generateToken u.id),
             users.map (fun v => if v.id == u.id then u2 else v))

/-! ## Book routes (`routes/books.ts`) -/

/-- The year bound used by the publishedYear validators
(`new Date().getFullYear()`), frozen at the value current for the
repository snapshot. -/
def currentYear : Nat := 2025

/-- express-validator `.trim().isLength({ min: 1 })`: the string is
nonempty after trimming whitespace, i.e. it has a non-whitespace
character. -/
def trimmedNonempty (s : String) : Bool :=
  s.data.any (fun c => !c.isWhitespace)

/-- Whether an optional body field passes `.optional().trim().isLength({min:1})`. -/
def optStrValid (o : Option String) : Bool :=
  match o with
  | none => true
  | some s => trimmedNonempty s

/-- Body of PUT /api/books/:id — all fields optional. -/
structure BookUpdate where
  title : Option String
  author : Option String
  description : Option String
  genre : Option String
  publishedYear : Option Nat
deriving DecidableEq, Repr

/-- The express-validator chain of PUT /api/books/:id. -/
def bookUpdateValid (b : BookUpdate) : Bool :=
  optStrValid b.title && optStrValid b.author
  && optStrValid b.description && optStrValid b.genre
  && (match b.publishedYear with
      | none => true
      | some y => decide (1000 ≤ y ∧ y ≤ currentYear))

/-- `Book.findByIdAndUpdate(id, req.body)`: set each field present in
the body. -/
def applyBookUpdate (body : BookUpdate) (b : Book) : Book :=
  { b with title := body.title.getD b.title,
           author := body.author.getD b.author,
           description := body.description.getD b.description,
           genre := body.genre.getD b.genre,
           publishedYear := body.publishedYear.getD b.publishedYear }

/-- Outcome of a protected mutating route (books/reviews update and
delete): the constructors carry the response message where the handlers
differ. -/
inductive RouteResult where
  | unauthenticated
  | validationErrors
  | notFound (message : String)
  | forbidden (message : String)
  | ok
deriving DecidableEq, Repr

/-- HTTP status of a `RouteResult`. -/
def RouteResult.status : RouteResult → Nat
  | .unauthenticated => 401
  | .validationErrors => 400
  | .notFound _ => 404
  | .forbidden _ => 403
  | .ok => 200

/-- PUT /api/books/:id (`routes/books.ts`): `protect`, validation, load
the book, refuse non-owners with 403, then apply the update. -/
def updateBookRoute (token : Option String) (users : List User)
    (bookIdParam : Nat) (body : BookUpdate) (books : List Book) :
    RouteResult × List Book :=
  match protect token users with
  | none => (.unauthenticated, books)
  | some actor =>
      if !(bookUpdateValid body) then (.validationErrors, books)
      else
        match books.find? (fun b => b.id == bookIdParam) with
        | none => (.notFound "Book not found", books)
        | some b =>
            if b.addedBy != actor.id then
              (.forbidden "Not authorized to update this book", books)
            else
              (.ok, books.map (fun x => if x.id == bookIdParam then applyBookUpdate body x else x))

/-- DELETE /api/books/:id (`routes/books.ts`): `protect`, load the
book, refuse non-owners with 403, then delete the book and cascade over
its reviews. -/
def deleteBookRoute (token : Option String) (users : List User)
    (bookIdParam : Nat) (books : List Book) (reviews : List Review) :
    RouteResult × List Book × List Review :=
  match protect token users with
  | none => (.unauthenticated, books, reviews)
  | some actor =>
      match books.find? (fun b => b.id == bookIdParam) with
      | none => (.notFound "Book not found", books, reviews)
      | some b =>
          if b.addedBy != actor.id then
            (.forbidden "Not authorized to delete this book", books, reviews)
          else
            (.ok, books.filter (fun x => x.id != bookIdParam),
             reviews.filter (fun r => r.bookId != bookIdParam))

/-! ## Review routes (the reviews router source) -/

/-- Body of PUT /api/reviews/:id — both fields optional. -/
structure ReviewUpdate where
  rating : Option Nat
  reviewText : Option String
deriving DecidableEq, Repr

/-- The express-validator chain of PUT /api/reviews/:id. -/
def reviewUpdateValid (b : ReviewUpdate) : Bool :=
  (match b.rating with
   | none => true
   | some r => decide (1 ≤ r ∧ r ≤ 5))
  && optStrValid b.reviewText

/-- `Review.findByIdAndUpdate(id, req.body)`: set each field present in
the body. -/
def applyReviewUpdate (body : ReviewUpdate) (r : Review) : Review :=
  { r with rating := body.rating.getD r.rating,
           reviewText := body.reviewText.getD r.reviewText }

/-- PUT /api/reviews/:id: `protect`, validation, load the review,
refuse non-owners with 403, then apply the update. -/
def updateReviewRoute (token : Option String) (users : List User)
    (reviewIdParam : Nat) (body : ReviewUpdate) (reviews : List Review) :
    RouteResult × List Review :=
  match protect token users with
  | none => (.unauthenticated, reviews)
  | some actor =>
      if !(reviewUpdateValid body) then (.validationErrors, reviews)
      else
        match reviews.find? (fun r => r.id == reviewIdParam) with
        | none => (.notFound "Review not found", reviews)
        | some r =>
            if r.userId != actor.id then
              (.forbidden "Not authorized to update this review", reviews)
            else
              (.ok, reviews.map (fun x => if x.id == reviewIdParam then applyReviewUpdate body x else x))

/-- DELETE /api/reviews/:id: `protect`, load the review, refuse
non-owners with 403, then delete it. -/
def deleteReviewRoute (token : Option String) (users : List User)
    (reviewIdParam : Nat) (reviews : List Review) :
    RouteResult × List Review :=
  match protect token users with
  | none => (.unauthenticated, reviews)
  | some actor =>
      match reviews.find? (fun r => r.id == reviewIdParam) with
      | none => (.notFound "Review not found", reviews)
      | some r =>
          if r.userId != actor.id then
            (.forbidden "Not authorized to delete this review", reviews)
          else
            (.ok, reviews.filter (fun x => x.id != reviewIdParam))

/-- Body of POST /api/reviews. -/
structure ReviewBody where
  bookId : Nat
  rating : Nat
  reviewText : String
deriving DecidableEq, Repr

/-- The express-validator chain of POST /api/reviews (`isMongoId` on
`bookId` is elided — ids are naturals in the model). -/
def reviewBodyValid (b : ReviewBody) : Bool :=
  decide (1 ≤ b.rating ∧ b.rating ≤ 5) && trimmedNonempty b.reviewText

/-- Outcome of POST /api/reviews. -/
inductive CreateReviewResult where
  | validationErrors
  | bookNotFound
  | alreadyReviewed
  | serverError
  | created (r : Review)
deriving DecidableEq, Repr

/-- HTTP status of a `CreateReviewResult` (`serverError` is the 500
produced by the catch-all of the route). -/
def CreateReviewResult.status : CreateReviewResult → Nat
  | .validationErrors => 400
  | .bookNotFound => 404
  | .alreadyReviewed => 400
  | .serverError => 500
  | .created _ => 201

/-- The read-only first phase of POST /api/reviews, after `protect`:
validation, book-existence check, and the application-level duplicate
check (`Review.findOne({ bookId, userId })`).  `none` means the handler
proceeds to the insert. -/
def createReviewCheck (actor : Nat) (body : ReviewBody)
    (books : List Book) (reviews : List Review) : Option CreateReviewResult :=
  if !(reviewBodyValid body) then some .validationErrors
  else
    match books.find? (fun b => b.id == body.bookId) with
    | none => some .bookNotFound
    | some _ =>
        match reviews.find? (fun r => r.bookId == body.bookId && r.userId == actor) with
        | some _ => some .alreadyReviewed
        | none => none

/-- `review.save()`: the store enforces the unique index on
`(bookId, userId)` declared in `models/Review.ts`, rejecting a
duplicate insert atomically. -/
def insertReview (r : Review) (reviews : List Review) :
    Except Unit (List Review) :=
  if reviews.any (fun x => x.bookId == r.bookId && x.userId == r.userId) then .error ()
  else .ok (reviews ++ [r])

/-- The insert phase of POST /api/reviews: a unique-index rejection is
caught by the try/catch of the route and surfaces as the 500
`Server error` response. -/
def finishInsertReview (actor : Nat) (body : ReviewBody) (newId : Nat)
    (reviews : List Review) : CreateReviewResult × List Review :=
  let r : Review :=
    { id := newId, bookId := body.bookId, userId := actor,
      rating := body.rating, reviewText := body.reviewText }
  match insertReview r reviews with
  | .ok reviews2 => (.created r, reviews2)
  | .error _ => (.serverError, reviews)

/-- POST /api/reviews, run to completion on a single request. -/
def createReview (actor : Nat) (body : ReviewBody) (newId : Nat)
    (books : List Book) (reviews : List Review) :
    CreateReviewResult × List Review :=
  match createReviewCheck actor body books reviews with
  | some early => (early, reviews)
  | none => finishInsertReview actor body newId reviews

/-- Two concurrent POST /api/reviews calls under the racy schedule the
event loop permits: both handlers run their awaited read-only checks
against the same initial state before either insert commits, then the
store serializes the two inserts (the unique index deciding the
loser). -/
def concurrentCreateReview (a1 : Nat) (b1 : ReviewBody) (id1 : Nat)
    (a2 : Nat) (b2 : ReviewBody) (id2 : Nat)
    (books : List Book) (reviews : List Review) :
    (CreateReviewResult × CreateReviewResult) × List Review :=
  match createReviewCheck a1 b1 books reviews,
        createReviewCheck a2 b2 books reviews with
  | some e1, some e2 => ((e1, e2), reviews)
  | some e1, none =>
      let out2 := finishInsertReview a2 b2 id2 reviews
      ((e1, out2.1), out2.2)
  | none, some e2 =>
      let out1 := finishInsertReview a1 b1 id1 reviews
      ((out1.1, e2), out1.2)
  | none, none =>
      let out1 := finishInsertReview a1 b1 id1 reviews
      let out2 := finishInsertReview a2 b2 id2 out1.2
      ((out1.1, out2.1), out2.2)

/-! ## Book listing and rating aggregation (`routes/books.ts`) -/

/-- `Math.round` (JavaScript): nearest integer, half away from zero
towards positive infinity; the handlers only apply it to non-negative
values. -/
def jsRound (x : ℚ) : ℤ := ⌊x + 1 / 2⌋

/-- The review-sum fold of the handlers:
`reviews.reduce((sum, review) => sum + review.rating, 0)`. -/
def ratingSum (rs : List Review) : ℚ :=
  rs.foldl (fun sum r => sum + (r.rating : ℚ)) 0

/-- The `avgRating` expression of both book routes: the fold divided by
the count when nonempty, else 0. -/
def ratingAvg (rs : List Review) : ℚ :=
  if rs.length > 0 then ratingSum rs / rs.length else 0

/-- A book decorated for the response:
`{ ...book, averageRating: Math.round(avgRating * 10) / 10, reviewCount }`. -/
structure BookWithRating where
  book : Book
  averageRating : ℚ
  reviewCount : Nat
deriving DecidableEq, Repr

/-- The rating aggregation shared by GET /api/books (list branch) and
GET /api/books/:id: filter the reviews of the book, average, round to
one decimal. -/
def withRating (reviews : List Review) (b : Book) : BookWithRating :=
  let rs := reviews.filter (fun r => r.bookId == b.id)
  { book := b,
    averageRating := (jsRound (ratingAvg rs * 10) : ℚ) / 10,
    reviewCount := rs.length }

/-- GET /api/books/:id: load the book (404 when absent, modelled as
`none`) and decorate it with the rating aggregate. -/
def getBookRoute (bookIdParam : Nat) (books : List Book)
    (reviews : List Review) : Option BookWithRating :=
  (books.find? (fun b => b.id == bookIdParam)).map (withRating reviews)

/-- `.sort({ createdAt: -1 })`: insertion step, newest first. -/
def insertByCreatedAt (b : Book) : List Book → List Book
  | [] => [b]
  | c :: cs =>
      if c.createdAt ≤ b.createdAt then b :: c :: cs
      else c :: insertByCreatedAt b cs

/-- The store ordering of the list query: books sorted by `createdAt`
descending. -/
def sortByCreatedAtDesc (bs : List Book) : List Book :=
  bs.foldr insertByCreatedAt []

/-- The 200 body of GET /api/books. -/
structure BooksPage where
  books : List BookWithRating
  currentPage : Nat
  totalPages : Nat
  totalBooks : Nat
deriving DecidableEq, Repr

/-- The core of GET /api/books after validation (`routes/books.ts`):
`page = parseInt(...) || 1`, `limit = parseInt(...) || 5`,
`skip = (page - 1) * limit`, query sorted by `createdAt` descending
with `limit`/`skip`, each book decorated with its rating aggregate, and
`totalPages = Math.ceil(total / limit)`.  `books` stands for the
collection already matching the search/genre filter (text search is
delegated to the store). -/
def listBooks (pageOpt limitOpt : Option Nat) (books : List Book)
    (reviews : List Review) : BooksPage :=
  let page := pageOpt.getD 1
  let limit := limitOpt.getD 5
  let skip := (page - 1) * limit
  let pageBooks := ((sortByCreatedAtDesc books).drop skip).take limit
  { books := pageBooks.map (withRating reviews),
    currentPage := page,
    totalPages := (⌈(books.length : ℚ) / (limit : ℚ)⌉).toNat,
    totalBooks := books.length }

/-- GET /api/books with its query validation: `page` must be a positive
integer and `limit` between 1 and 50 when supplied; `none` models the
400 validation response. -/
def getBooksRoute (pageOpt limitOpt : Option Nat) (books : List Book)
    (reviews : List Review) : Option BooksPage :=
  let pageOk := match pageOpt with
    | none => true
    | some p => decide (1 ≤ p)
  let limitOk := match limitOpt with
    | none => true
    | some l => decide (1 ≤ l ∧ l ≤ 50)
  if pageOk && limitOk then some (listBooks pageOpt limitOpt books reviews)
  else none

/-! ## Concrete sample data for witnesses -/

/-- Sample registered user. -/
def alice : User :=
  { id := 1, name := "Alice", email := "alice@x.com",
    password := bcryptHash "secret1",
    resetPasswordToken := none, resetPasswordExpires := none }

/-- Sample user with a pending reset token (hash of `tok77`, expiring at
time 1000). -/
def bob : User :=
  { id := 2, name := "Bob", email := "bob@x.com",
    password := bcryptHash "pw1234",
    resetPasswordToken := some (sha256hex "tok77"),
    resetPasswordExpires := some 1000 }

/-- Sample book owned by user 1. -/
def demoBook : Book :=
  { id := 10, title := "Dune", author := "Herbert", description := "sand",
    genre := "SF", publishedYear := 1965, addedBy := 1, createdAt := 5 }

/-- Sample review of `demoBook` by user 2. -/
def demoReview : Review :=
  { id := 100, bookId := 10, userId := 2, rating := 4, reviewText := "fine" }

/-- Sample review of `demoBook` by user 1, for non-owner mutation checks. -/
def demoReviewAlice : Review :=
  { id := 101, bookId := 10, userId := 1, rating := 5, reviewText := "ok" }

/-- 25 sample books for the pagination boundary check. -/
def demoBooks : List Book :=
  (List.range 25).map (fun i =>
    { id := i, title := "b", author := "a", description := "d",
      genre := "g", publishedYear := 2000, addedBy := 1, createdAt := i })

/-! ## Helper lemmas -/

/-- The Token Issuer roundtrip (spec §4.2): verifying an issued token
yields the subject it was issued for. -/
theorem verifyToken_generateToken (id : Nat) :
    verifyToken (generateToken id) = some id := by
  have hall : (List.replicate id 'x').all (fun c => c == 'x') = true := by
    simp [List.all_eq_true, List.mem_replicate]
  simp [verifyToken, generateToken, hall]

/-! ## Claim theorems -/

/-- C1: ForgotPassword on a registered email changes exactly the two reset
fields of the found user — every other user is untouched and the found user
keeps its id, name, email and stored password hash, so the old password still
verifies — while `resetPasswordToken` is set to the sha256 of the fresh token
and `resetPasswordExpires` to now plus ten minutes. -/
theorem forgotPassword_sets_only_reset_fields
    (email : String) (now : Nat) (randTok : String) (users : List User) (u : User)
    (hids : (users.map User.id).Nodup)
    (hv : isEmail email = true)
    (hf : users.find? (fun v => v.email == email) = some u) :
    forgotPassword email now randTok users
      = (ForgotResponse.ok "Password reset token generated" (some randTok),
         users.map (fun v =>
           if v.id == u.id then
             { v with resetPasswordToken := some (sha256hex randTok),
                      resetPasswordExpires := some (now + 10 * 60 * 1000) }
           else v))
    ∧ ∀ v ∈ (forgotPassword email now randTok users).2, ∃ w ∈ users,
        v.id = w.id ∧ v.name = w.name ∧ v.email = w.email ∧ v.password = w.password
        ∧ ∀ p, bcryptCompare p v.password = bcryptCompare p w.password := by
  have hu : u ∈ users := List.mem_of_find?_eq_some hf
  have hmain : forgotPassword email now randTok users
      = (ForgotResponse.ok "Password reset token generated" (some randTok),
         users.map (fun v =>
           if v.id == u.id then
             { u with resetPasswordToken := some (sha256hex randTok),
                      resetPasswordExpires := some (now + 10 * 60 * 1000) }
           else v)) := by
    simp [forgotPassword, hv, hf]
  have hmap : users.map (fun v =>
        if v.id == u.id then
          { u with resetPasswordToken := some (sha256hex randTok),
                   resetPasswordExpires := some (now + 10 * 60 * 1000) }
        else v)
      = users.map (fun v =>
        if v.id == u.id then
          { v with resetPasswordToken := some (sha256hex randTok),
                   resetPasswordExpires := some (now + 10 * 60 * 1000) }
        else v) := by
    apply List.map_congr_left
    intro a ha
    by_cases h : a.id = u.id
    · have ha2 : a = u := List.inj_on_of_nodup_map hids ha hu h
      subst ha2
      simp
    · simp [h]
  constructor
  · rw [hmain, hmap]
  · intro v hv2
    rw [hmain] at hv2
    obtain ⟨w, hw, rfl⟩ := List.mem_map.mp hv2
    by_cases h : w.id = u.id
    · exact ⟨u, hu, by simp [h]⟩
    · exact ⟨w, hw, by simp [h]⟩

/-- C1 witness: the theorem applied to the one-user store. -/
theorem forgotPassword_sets_only_reset_fields_witness :
    forgotPassword "alice@x.com" 7 "rnd" [alice]
      = (ForgotResponse.ok "Password reset token generated" (some "rnd"),
         [{ alice with resetPasswordToken := some (sha256hex "rnd"),
                       resetPasswordExpires := some (7 + 10 * 60 * 1000) }]) := by
  have h := forgotPassword_sets_only_reset_fields "alice@x.com" 7 "rnd" [alice] alice
      (by decide) (by decide) (by decide)
  rw [h.1]
  decide

/-- C2 counterexample: at the same well-formed email, the forgot-password
success body when a user is registered differs from the body when none is —
the handler returns a different message plus the plaintext reset token when
the account exists, so the response is not the same generic message and does
reveal whether the account exists. -/
theorem forgotPassword_response_reveals_account :
    (forgotPassword "alice@x.com" 0 "rnd" [alice]).1
      = ForgotResponse.ok "Password reset token generated" (some "rnd")
    ∧ (forgotPassword "alice@x.com" 0 "rnd" []).1
      = ForgotResponse.ok
          "If an account with that email exists, a password reset link has been sent."
          none
    ∧ (forgotPassword "alice@x.com" 0 "rnd" [alice]).1
        ≠ (forgotPassword "alice@x.com" 0 "rnd" []).1 := by
  refine ⟨?_, ?_, ?_⟩ <;> decide

/-- C2 (amended): for every well-formed email the operation returns a 200
success body whether or not a user with that email is registered — it never
fails on an unknown email — but the two bodies differ: the unknown-email
branch carries the generic message and no token, while the registered branch
carries a different message together with the plaintext reset token. -/
theorem forgotPassword_always_succeeds (email : String) (now : Nat)
    (randTok : String) (users : List User) (hv : isEmail email = true) :
    (∃ m t, (forgotPassword email now randTok users).1 = ForgotResponse.ok m t)
    ∧ (users.find? (fun u => u.email == email) = none →
        forgotPassword email now randTok users
          = (ForgotResponse.ok
              "If an account with that email exists, a password reset link has been sent."
              none,
             users))
    ∧ (∀ u, users.find? (fun u => u.email == email) = some u →
        (forgotPassword email now randTok users).1
          = ForgotResponse.ok "Password reset token generated" (some randTok)) := by
  refine ⟨?_, ?_, ?_⟩
  · cases hf : users.find? (fun u => u.email == email) with
    | none =>
        exact ⟨"If an account with that email exists, a password reset link has been sent.",
               none, by simp [forgotPassword, hv, hf]⟩
    | some u =>
        exact ⟨"Password reset token generated", some randTok,
               by simp [forgotPassword, hv, hf]⟩
  · intro hf
    simp [forgotPassword, hv, hf]
  · intro u hf
    simp [forgotPassword, hv, hf]

/-- C2 witness: the amended theorem applied to a concrete store. -/
theorem forgotPassword_always_succeeds_witness :
    ∃ m t, (forgotPassword "alice@x.com" 0 "rnd" [alice]).1 = ForgotResponse.ok m t :=
  (forgotPassword_always_succeeds "alice@x.com" 0 "rnd" [alice] (by decide)).1

/-- C3 counterexample: a change-password request whose new password equals the
current one — both decrypt, the current password verifies against the stored
hash, and the length policy holds — succeeds with the 200 body instead of
failing with a ValidationError: the handler has no equality check. -/
theorem changePassword_equal_passwords_counterexample :
    decryptPassword "enc$secret1" = some "secret1"
    ∧ bcryptCompare "secret1" alice.password = true
    ∧ 6 ≤ ("enc$secret1" : String).length
    ∧ (changePassword 1 "enc$secret1" "enc$secret1" [alice]).1 = ChangeResponse.ok
    ∧ ChangeResponse.ok ≠ ChangeResponse.validationErrors := by
  refine ⟨?_, ?_, ?_, ?_, ?_⟩ <;> decide

/-- C3 (amended): an authenticated change-password request whose new password
equals the current one (both decrypting, policy length satisfied, current
verifying) succeeds: the handler returns the 200 body and stores the bcrypt
hash of the new — identical — password; no ValidationError is raised. -/
theorem changePassword_equal_passwords_succeeds
    (actorId : Nat) (encCur encNew : String) (users : List User) (u : User)
    (pc pn : String)
    (hlen : 6 ≤ encNew.length)
    (hdc : decryptPassword encCur = some pc)
    (hdn : decryptPassword encNew = some pn)
    (hfind : users.find? (fun v => v.id == actorId) = some u)
    (hcur : bcryptCompare pc u.password = true)
    (_heq : pn = pc) :
    (changePassword actorId encCur encNew users).1 = ChangeResponse.ok
    ∧ (changePassword actorId encCur encNew users).2
        = users.map (fun v => if v.id == u.id then { u with password := bcryptHash pn } else v) := by
  have hnl : ¬ (encNew.length < 6) := by omega
  constructor <;> simp [changePassword, hnl, hdc, hdn, hfind, hcur]

/-- C3 witness: the amended theorem applied to the one-user store with the new
password equal to the current one. -/
theorem changePassword_equal_passwords_succeeds_witness :
    (changePassword 1 "enc$secret1" "enc$secret1" [alice]).1 = ChangeResponse.ok
    ∧ (changePassword 1 "enc$secret1" "enc$secret1" [alice]).2
        = [{ alice with password := bcryptHash "secret1" }] := by
  have h := changePassword_equal_passwords_succeeds 1 "enc$secret1" "enc$secret1"
      [alice] alice "secret1" "secret1"
      (by decide) (by decide) (by decide) (by decide) (by decide) rfl
  exact ⟨h.1, by rw [h.2]; decide⟩

/-- C6: the login failure response when no user carries the email is identical
— same 401 status, same body — to the failure when the user exists but the
password does not verify, and with correct credentials login returns the
registered identity together with a session token whose verification yields
that identity. -/
theorem login_uniform_failure_and_token
    (e1 c1 : String) (us1 : List User)
    (e2 c2 : String) (us2 : List User) (u2 : User) (p2 : String)
    (e3 c3 : String) (us3 : List User) (u3 : User) (p3 : String)
    (hv1 : isEmail e1 = true) (hd1 : (decryptPassword c1).isSome = true)
    (hf1 : us1.find? (fun u => u.email == e1) = none)
    (hv2 : isEmail e2 = true) (hd2 : decryptPassword c2 = some p2)
    (hf2 : us2.find? (fun u => u.email == e2) = some u2)
    (hw2 : bcryptCompare p2 u2.password = false)
    (hv3 : isEmail e3 = true) (hd3 : decryptPassword c3 = some p3)
    (hf3 : us3.find? (fun u => u.email == e3) = some u3)
    (hc3 : bcryptCompare p3 u3.password = true) :
    login e1 c1 us1 = LoginResponse.error 401 "Invalid credentials"
    ∧ login e2 c2 us2 = LoginResponse.error 401 "Invalid credentials"
    ∧ login e1 c1 us1 = login e2 c2 us2
    ∧ login e3 c3 us3
        = LoginResponse.success u3.id u3.name u3.email (generateToken u3.id)
    ∧ verifyToken (generateToken u3.id) = some u3.id := by
  obtain ⟨p1, hp1⟩ := Option.isSome_iff_exists.mp hd1
  have h1 : login e1 c1 us1 = LoginResponse.error 401 "Invalid credentials" := by
    simp [login, hv1, hp1, hf1]
  have h2 : login e2 c2 us2 = LoginResponse.error 401 "Invalid credentials" := by
    simp [login, hv2, hd2, hf2, hw2]
  refine ⟨h1, h2, by rw [h1, h2], ?_, verifyToken_generateToken u3.id⟩
  simp [login, hv3, hd3, hf3, hc3]

/-- C6 witness: unknown email and wrong password produce the same concrete 401
response, and the correct credentials produce the identity with a verifying
token. -/
theorem login_uniform_failure_and_token_witness :
    login "ghost@x.com" "enc$pw" [alice] = LoginResponse.error 401 "Invalid credentials"
    ∧ login "alice@x.com" "enc$wrong" [alice] = LoginResponse.error 401 "Invalid credentials"
    ∧ login "alice@x.com" "enc$secret1" [alice]
        = LoginResponse.success alice.id alice.name alice.email (generateToken alice.id)
    ∧ verifyToken (generateToken alice.id) = some alice.id := by
  have h := login_uniform_failure_and_token
      "ghost@x.com" "enc$pw" [alice]
      "alice@x.com" "enc$wrong" [alice] alice "wrong"
      "alice@x.com" "enc$secret1" [alice] alice "secret1"
      (by decide) (by decide) (by decide)
      (by decide) (by decide) (by decide) (by decide)
      (by decide) (by decide) (by decide) (by decide)
  exact ⟨h.1, h.2.1, h.2.2.2.1, h.2.2.2.2⟩

/-- Unfolding of the reset-password store filter: it holds exactly when the
stored token hash equals the sha256 of the URL token and some stored expiry
lies strictly in the future. -/
theorem resetMatcher_eq_true (t : String) (now : Nat) (u : User) :
    resetMatcher t now u = true
      ↔ u.resetPasswordToken = some (sha256hex t)
        ∧ ∃ e, u.resetPasswordExpires = some e ∧ now < e := by
  unfold resetMatcher
  cases hE : u.resetPasswordExpires with
  | none => simp [hE]
  | some e => simp [hE]

/-- C4 counterexample: a store holding a matching, unexpired token together
with a password field that fails validation makes the operation return the
validation error, not success — refuting "succeeds if and only if some stored
hash matches and now is before the expiry" as stated. -/
theorem resetPassword_not_iff_counterexample :
    (∃ u ∈ [bob], resetMatcher "tok77" 500 u = true)
    ∧ resetPassword "tok77" "abc" 500 [bob] = (ResetResponse.validationErrors, [bob])
    ∧ ResetResponse.validationErrors.isSuccess = false := by
  refine ⟨?_, ?_, ?_⟩ <;> decide

/-- C4 (amended): for a request whose password field passes validation and
decrypts, ResetPassword succeeds exactly when some stored reset-token hash
equals the sha256 of the supplied token with the current time strictly before
that stored expiry; when no user matches — in particular once the clock passes
the expiry — it fails with the invalid-or-expired error and the store is
unchanged. -/
theorem resetPassword_success_iff
    (tokenParam encPassword : String) (now : Nat) (users : List User) (plain : String)
    (hlen : 6 ≤ encPassword.length)
    (hdec : decryptPassword encPassword = some plain) :
    ((resetPassword tokenParam encPassword now users).1.isSuccess = true
      ↔ ∃ u ∈ users, u.resetPasswordToken = some (sha256hex tokenParam)
          ∧ ∃ e, u.resetPasswordExpires = some e ∧ now < e)
    ∧ ((∀ u ∈ users, resetMatcher tokenParam now u = false) →
        resetPassword tokenParam encPassword now users
          = (ResetResponse.invalidOrExpired, users)) := by
  have hnl : ¬ (encPassword.length < 6) := by omega
  constructor
  · have hB : (∃ u ∈ users, u.resetPasswordToken = some (sha256hex tokenParam)
          ∧ ∃ e, u.resetPasswordExpires = some e ∧ now < e)
        ↔ (users.find? (resetMatcher tokenParam now)).isSome = true := by
      rw [List.find?_isSome]
      simp only [resetMatcher_eq_true]
    rw [hB]
    cases hf : users.find? (resetMatcher tokenParam now) with
    | none => simp [resetPassword, hnl, hdec, hf, ResetResponse.isSuccess]
    | some u => simp [resetPassword, hnl, hdec, hf, ResetResponse.isSuccess]
  · intro hall
    have hf : users.find? (resetMatcher tokenParam now) = none :=
      List.find?_eq_none.mpr (fun x hx => by simp [hall x hx])
    simp [resetPassword, hnl, hdec, hf]

/-- C4 witness: the amended theorem applied to the store holding the pending
token of `bob`. -/
theorem resetPassword_success_iff_witness :
    (resetPassword "tok77" "enc$newpw1" 500 [bob]).1.isSuccess = true
      ↔ ∃ u ∈ [bob], u.resetPasswordToken = some (sha256hex "tok77")
          ∧ ∃ e, u.resetPasswordExpires = some e ∧ 500 < e :=
  (resetPassword_success_iff "tok77" "enc$newpw1" 500 [bob] "newpw1"
    (by decide) (by decide)).1

/-- Run lemma: when the store filter of the reset-password handler finds a
user, the handler succeeds and replaces that user by its updated copy — new
password hash, reset fields cleared. -/
theorem resetPassword_found
    (tokenParam encPassword plain : String) (now : Nat)
    (users : List User) (u : User)
    (hlen : 6 ≤ encPassword.length)
    (hdec : decryptPassword encPassword = some plain)
    (hfind : users.find? (resetMatcher tokenParam now) = some u) :
    resetPassword tokenParam encPassword now users
      = (ResetResponse.success u.id u.name u.email (generateToken u.id),
         users.map (fun v =>
           if v.id == u.id then
             { u with password := bcryptHash plain,
                      resetPasswordToken := none, resetPasswordExpires := none }
           else v)) := by
  have hnl : ¬ (encPassword.length < 6) := by omega
  simp [resetPassword, hnl, hdec, hfind]

/-- Run lemma: when no user passes the store filter, the reset-password
handler fails with the invalid-or-expired error and leaves the store
unchanged. -/
theorem resetPassword_no_match
    (tokenParam encPassword plain : String) (now : Nat) (users : List User)
    (hlen : 6 ≤ encPassword.length)
    (hdec : decryptPassword encPassword = some plain)
    (hall : ∀ u ∈ users, resetMatcher tokenParam now u = false) :
    resetPassword tokenParam encPassword now users
      = (ResetResponse.invalidOrExpired, users) := by
  have hnl : ¬ (encPassword.length < 6) := by omega
  have hf : users.find? (resetMatcher tokenParam now) = none :=
    List.find?_eq_none.mpr (fun x hx => by simp [hall x hx])
  simp [resetPassword, hnl, hdec, hf]

/-- C5: a reset token is single-use: when a ResetPassword call succeeds for
the user found by the store filter (and no other user holds that token hash),
the success clears the stored hash from the store, and a second call with the
same plaintext token — at any later or earlier time — fails with the
invalid-or-expired error and leaves the store unchanged. -/
theorem resetPassword_single_use
    (tokenParam encPassword plain : String) (now now2 : Nat)
    (users : List User) (u : User)
    (hlen : 6 ≤ encPassword.length)
    (hdec : decryptPassword encPassword = some plain)
    (hfind : users.find? (resetMatcher tokenParam now) = some u)
    (hunique : ∀ v ∈ users,
        v.resetPasswordToken = some (sha256hex tokenParam) → v.id = u.id) :
    (resetPassword tokenParam encPassword now users).1
        = ResetResponse.success u.id u.name u.email (generateToken u.id)
    ∧ (∀ v ∈ (resetPassword tokenParam encPassword now users).2,
         v.resetPasswordToken ≠ some (sha256hex tokenParam))
    ∧ resetPassword tokenParam encPassword now2
          ((resetPassword tokenParam encPassword now users).2)
        = (ResetResponse.invalidOrExpired,
           (resetPassword tokenParam encPassword now users).2) := by
  have hrun := resetPassword_found tokenParam encPassword plain now users u hlen hdec hfind
  have hcleared : ∀ v ∈ users.map (fun v =>
        if v.id == u.id then
          { u with password := bcryptHash plain,
                   resetPasswordToken := none, resetPasswordExpires := none }
        else v), v.resetPasswordToken ≠ some (sha256hex tokenParam) := by
    intro v hv
    obtain ⟨w, hw, rfl⟩ := List.mem_map.mp hv
    by_cases h : w.id = u.id
    · simp [h]
    · have hfw : (if w.id == u.id then
          ({ u with password := bcryptHash plain,
                    resetPasswordToken := none, resetPasswordExpires := none } : User)
          else w) = w := by simp [h]
      rw [hfw]
      intro hcontra
      exact h (hunique w hw hcontra)
  have hall2 : ∀ v ∈ users.map (fun v =>
        if v.id == u.id then
          { u with password := bcryptHash plain,
                   resetPasswordToken := none, resetPasswordExpires := none }
        else v), resetMatcher tokenParam now2 v = false := by
    intro v hv
    have hbe : (v.resetPasswordToken == some (sha256hex tokenParam)) = false :=
      beq_eq_false_iff_ne.mpr (hcleared v hv)
    unfold resetMatcher
    rw [hbe, Bool.false_and]
  have hsecond := resetPassword_no_match tokenParam encPassword plain now2
      (users.map (fun v =>
        if v.id == u.id then
          { u with password := bcryptHash plain,
                   resetPasswordToken := none, resetPasswordExpires := none }
        else v)) hlen hdec hall2
  refine ⟨by rw [hrun], ?_, ?_⟩
  · rw [hrun]
    exact hcleared
  · rw [hrun]
    exact hsecond

/-- C5 witness: consume the pending token of `bob`, then replay it. -/
theorem resetPassword_single_use_witness :
    (resetPassword "tok77" "enc$newpw1" 500 [bob]).1
      = ResetResponse.success bob.id bob.name bob.email (generateToken bob.id)
    ∧ resetPassword "tok77" "enc$newpw1" 2000
          ((resetPassword "tok77" "enc$newpw1" 500 [bob]).2)
      = (ResetResponse.invalidOrExpired,
         (resetPassword "tok77" "enc$newpw1" 500 [bob]).2) := by
  have h := resetPassword_single_use "tok77" "enc$newpw1" "newpw1" 500 2000 [bob] bob
      (by decide) (by decide) (by decide) (by decide)
  exact ⟨h.1, h.2.2⟩

/-- C7: for every authenticated mutating request on a Book or Review whose
acting identity differs from the record owner, the store is left unchanged and
the mutation never succeeds; when the request body passes validation the
response is the 403 Forbidden of the handler (deletes have no body
validation), and 403 is distinct from the 401 Unauthenticated of the
middleware. -/
theorem ownership_forbidden
    (token : Option String) (users : List User) (actor : User)
    (hauth : protect token users = some actor) :
    (∀ (bid : Nat) (body : BookUpdate) (books : List Book) (b : Book),
       books.find? (fun x => x.id == bid) = some b → b.addedBy ≠ actor.id →
       (updateBookRoute token users bid body books).2 = books
       ∧ (updateBookRoute token users bid body books).1 ≠ RouteResult.ok
       ∧ (bookUpdateValid body = true →
           updateBookRoute token users bid body books
             = (RouteResult.forbidden "Not authorized to update this book", books)))
    ∧ (∀ (bid : Nat) (books : List Book) (reviews : List Review) (b : Book),
       books.find? (fun x => x.id == bid) = some b → b.addedBy ≠ actor.id →
       deleteBookRoute token users bid books reviews
         = (RouteResult.forbidden "Not authorized to delete this book", books, reviews))
    ∧ (∀ (rid : Nat) (body : ReviewUpdate) (reviews : List Review) (r : Review),
       reviews.find? (fun x => x.id == rid) = some r → r.userId ≠ actor.id →
       (updateReviewRoute token users rid body reviews).2 = reviews
       ∧ (updateReviewRoute token users rid body reviews).1 ≠ RouteResult.ok
       ∧ (reviewUpdateValid body = true →
           updateReviewRoute token users rid body reviews
             = (RouteResult.forbidden "Not authorized to update this review", reviews)))
    ∧ (∀ (rid : Nat) (reviews : List Review) (r : Review),
       reviews.find? (fun x => x.id == rid) = some r → r.userId ≠ actor.id →
       deleteReviewRoute token users rid reviews
         = (RouteResult.forbidden "Not authorized to delete this review", reviews))
    ∧ (∀ m, (RouteResult.forbidden m).status = 403)
    ∧ RouteResult.unauthenticated.status = 401
    ∧ (∀ m, RouteResult.forbidden m ≠ RouteResult.unauthenticated) := by
  refine ⟨?_, ?_, ?_, ?_, fun m => rfl, rfl, fun m h => RouteResult.noConfusion h⟩
  · intro bid body books b hf hne
    by_cases hvb : bookUpdateValid body
    · have hout : updateBookRoute token users bid body books
          = (RouteResult.forbidden "Not authorized to update this book", books) := by
        simp [updateBookRoute, hauth, hvb, hf, hne]
      refine ⟨by rw [hout], by rw [hout]; exact fun hc => RouteResult.noConfusion hc, fun _ => hout⟩
    · have hout : updateBookRoute token users bid body books
          = (RouteResult.validationErrors, books) := by
        simp [updateBookRoute, hauth, hvb]
      refine ⟨by rw [hout], by rw [hout]; exact fun hc => RouteResult.noConfusion hc, fun hv2 => absurd hv2 hvb⟩
  · intro bid books reviews b hf hne
    simp [deleteBookRoute, hauth, hf, hne]
  · intro rid body reviews r hf hne
    by_cases hvb : reviewUpdateValid body
    · have hout : updateReviewRoute token users rid body reviews
          = (RouteResult.forbidden "Not authorized to update this review", reviews) := by
        simp [updateReviewRoute, hauth, hvb, hf, hne]
      refine ⟨by rw [hout], by rw [hout]; exact fun hc => RouteResult.noConfusion hc, fun _ => hout⟩
    · have hout : updateReviewRoute token users rid body reviews
          = (RouteResult.validationErrors, reviews) := by
        simp [updateReviewRoute, hauth, hvb]
      refine ⟨by rw [hout], by rw [hout]; exact fun hc => RouteResult.noConfusion hc, fun hv2 => absurd hv2 hvb⟩
  · intro rid reviews r hf hne
    simp [deleteReviewRoute, hauth, hf, hne]

/-- C7 witness: user 2 (a valid bearer token for `bob`) attempting to mutate
a book and a review owned by user 1 receives the 403 response in all four
routes, with the stores unchanged. -/
theorem ownership_forbidden_witness :
    updateBookRoute (some (generateToken 2)) [alice, bob] 10
        { title := some "H", author := none, description := none,
          genre := none, publishedYear := none } [demoBook]
      = (RouteResult.forbidden "Not authorized to update this book", [demoBook])
    ∧ deleteBookRoute (some (generateToken 2)) [alice, bob] 10 [demoBook] [demoReviewAlice]
      = (RouteResult.forbidden "Not authorized to delete this book", [demoBook], [demoReviewAlice])
    ∧ updateReviewRoute (some (generateToken 2)) [alice, bob] 101
        { rating := some 1, reviewText := none } [demoReviewAlice]
      = (RouteResult.forbidden "Not authorized to update this review", [demoReviewAlice])
    ∧ deleteReviewRoute (some (generateToken 2)) [alice, bob] 101 [demoReviewAlice]
      = (RouteResult.forbidden "Not authorized to delete this review", [demoReviewAlice]) := by
  have h := ownership_forbidden (some (generateToken 2)) [alice, bob] bob (by decide)
  exact ⟨(h.1 10 { title := some "H", author := none, description := none,
                   genre := none, publishedYear := none } [demoBook] demoBook
            (by decide) (by decide)).2.2 (by decide),
         h.2.1 10 [demoBook] [demoReviewAlice] demoBook (by decide) (by decide),
         (h.2.2.1 101 { rating := some 1, reviewText := none } [demoReviewAlice]
            demoReviewAlice (by decide) (by decide)).2.2 (by decide),
         h.2.2.2.1 101 [demoReviewAlice] demoReviewAlice (by decide) (by decide)⟩

/-- C8 counterexample: in the racy schedule of two concurrent CreateReview
calls for the same (user, book) pair — both duplicate checks reading the
initial state — exactly one call succeeds, but the loser is rejected by the
unique index and surfaces as the 500 Server error of the route catch-all, not
as the 400 duplicate-review response the claim asserts. -/
theorem concurrent_review_loser_not_conflict :
    concurrentCreateReview 2 { bookId := 10, rating := 5, reviewText := "good" } 200
        2 { bookId := 10, rating := 5, reviewText := "good" } 201 [demoBook] []
      = ((CreateReviewResult.created
            { id := 200, bookId := 10, userId := 2, rating := 5, reviewText := "good" },
          CreateReviewResult.serverError),
         [{ id := 200, bookId := 10, userId := 2, rating := 5, reviewText := "good" }])
    ∧ CreateReviewResult.serverError.status = 500
    ∧ CreateReviewResult.alreadyReviewed.status = 400
    ∧ CreateReviewResult.serverError ≠ CreateReviewResult.alreadyReviewed := by
  refine ⟨?_, ?_, ?_, ?_⟩ <;> decide

/-- C8 (amended): at most one review per (book, user) pair. A CreateReview
call for a pair that already has a review fails with the 400 duplicate
response and creates nothing; of two attempts for the same pair exactly one
succeeds: run sequentially the loser gets the 400 duplicate response, while
under the concurrent check-then-act schedule the loser is rejected by the
unique index and surfaces as the 500 server error — in both schedules exactly
one review is added. -/
theorem review_unique_per_pair
    (actor : Nat) (body : ReviewBody) (id1 id2 : Nat)
    (books : List Book) (reviews : List Review) (b : Book)
    (hvb : reviewBodyValid body = true)
    (hbook : books.find? (fun x => x.id == body.bookId) = some b) :
    ((reviews.find? (fun r => r.bookId == body.bookId && r.userId == actor)).isSome = true →
      createReview actor body id1 books reviews
        = (CreateReviewResult.alreadyReviewed, reviews)
      ∧ CreateReviewResult.alreadyReviewed.status = 400)
    ∧ (reviews.find? (fun r => r.bookId == body.bookId && r.userId == actor) = none →
        createReview actor body id1 books reviews
          = (CreateReviewResult.created
               { id := id1, bookId := body.bookId, userId := actor,
                 rating := body.rating, reviewText := body.reviewText },
             reviews ++ [{ id := id1, bookId := body.bookId, userId := actor,
                           rating := body.rating, reviewText := body.reviewText }])
        ∧ createReview actor body id2 books
              (reviews ++ [{ id := id1, bookId := body.bookId, userId := actor,
                             rating := body.rating, reviewText := body.reviewText }])
          = (CreateReviewResult.alreadyReviewed,
             reviews ++ [{ id := id1, bookId := body.bookId, userId := actor,
                           rating := body.rating, reviewText := body.reviewText }])
        ∧ concurrentCreateReview actor body id1 actor body id2 books reviews
          = ((CreateReviewResult.created
                { id := id1, bookId := body.bookId, userId := actor,
                  rating := body.rating, reviewText := body.reviewText },
              CreateReviewResult.serverError),
             reviews ++ [{ id := id1, bookId := body.bookId, userId := actor,
                           rating := body.rating, reviewText := body.reviewText }])) := by
  constructor
  · intro hdup
    obtain ⟨r0, hr0⟩ := Option.isSome_iff_exists.mp hdup
    have hcheck : createReviewCheck actor body books reviews
        = some CreateReviewResult.alreadyReviewed := by
      simp [createReviewCheck, hvb, hbook, hr0]
    exact ⟨by simp [createReview, hcheck], rfl⟩
  · intro hnone
    have hcheck : createReviewCheck actor body books reviews = none := by
      simp [createReviewCheck, hvb, hbook, hnone]
    have hany : reviews.any
        (fun x => x.bookId == body.bookId && x.userId == actor) = false := by
      rw [List.any_eq_false]
      exact List.find?_eq_none.mp hnone
    have hins : insertReview
        { id := id1, bookId := body.bookId, userId := actor,
          rating := body.rating, reviewText := body.reviewText } reviews
        = Except.ok (reviews ++ [{ id := id1, bookId := body.bookId, userId := actor,
                                   rating := body.rating, reviewText := body.reviewText }]) := by
      simp [insertReview, hany]
    have hrun1 : createReview actor body id1 books reviews
        = (CreateReviewResult.created
             { id := id1, bookId := body.bookId, userId := actor,
               rating := body.rating, reviewText := body.reviewText },
           reviews ++ [{ id := id1, bookId := body.bookId, userId := actor,
                         rating := body.rating, reviewText := body.reviewText }]) := by
      simp [createReview, hcheck, finishInsertReview, hins]
    have hfind2 : List.find? (fun r => r.bookId == body.bookId && r.userId == actor)
        (reviews ++ [{ id := id1, bookId := body.bookId, userId := actor,
                       rating := body.rating, reviewText := body.reviewText }])
        = some { id := id1, bookId := body.bookId, userId := actor,
                 rating := body.rating, reviewText := body.reviewText } := by
      rw [List.find?_append, hnone]
      simp
    have hcheck2 : createReviewCheck actor body books
        (reviews ++ [{ id := id1, bookId := body.bookId, userId := actor,
                       rating := body.rating, reviewText := body.reviewText }])
        = some CreateReviewResult.alreadyReviewed := by
      simp [createReviewCheck, hvb, hbook, hfind2]
    have hany2 : List.any
        (reviews ++ [{ id := id1, bookId := body.bookId, userId := actor,
                       rating := body.rating, reviewText := body.reviewText }])
        (fun x => x.bookId == body.bookId && x.userId == actor) = true := by
      rw [List.any_append]
      simp
    have hins2 : insertReview
        { id := id2, bookId := body.bookId, userId := actor,
          rating := body.rating, reviewText := body.reviewText }
        (reviews ++ [{ id := id1, bookId := body.bookId, userId := actor,
                       rating := body.rating, reviewText := body.reviewText }])
        = Except.error () := by
      simp [insertReview, hany2]
    refine ⟨hrun1, ?_, ?_⟩
    · simp [createReview, hcheck2]
    · simp [concurrentCreateReview, hcheck, finishInsertReview, hins, hins2]

/-- C8 witness: the amended theorem applied to the sample book with an empty
review store: the sequential duplicate gets the 400 response. -/
theorem review_unique_per_pair_witness :
    createReview 2 { bookId := 10, rating := 5, reviewText := "good" } 200 [demoBook] []
      = (CreateReviewResult.created
           { id := 200, bookId := 10, userId := 2, rating := 5, reviewText := "good" },
         [{ id := 200, bookId := 10, userId := 2, rating := 5, reviewText := "good" }])
    ∧ createReview 2 { bookId := 10, rating := 5, reviewText := "good" } 201 [demoBook]
          [{ id := 200, bookId := 10, userId := 2, rating := 5, reviewText := "good" }]
      = (CreateReviewResult.alreadyReviewed,
         [{ id := 200, bookId := 10, userId := 2, rating := 5, reviewText := "good" }]) := by
  have h := review_unique_per_pair 2 { bookId := 10, rating := 5, reviewText := "good" }
      200 201 [demoBook] [] demoBook (by decide) (by decide)
  have h2 := h.2 (by decide)
  exact ⟨h2.1, by simpa using h2.2.1⟩

/-- Inserting into the sorted-by-creation list adds one element. -/
theorem length_insertByCreatedAt (b : Book) (l : List Book) :
    (insertByCreatedAt b l).length = l.length + 1 := by
  induction l with
  | nil => rfl
  | cons c cs ih =>
      unfold insertByCreatedAt
      by_cases h : c.createdAt ≤ b.createdAt
      · simp [h]
      · simp [h, ih]

/-- The sort of the list query keeps the number of records. -/
theorem length_sortByCreatedAtDesc (bs : List Book) :
    (sortByCreatedAtDesc bs).length = bs.length := by
  unfold sortByCreatedAtDesc
  induction bs with
  | nil => rfl
  | cons b rest ih =>
      rw [List.foldr_cons, length_insertByCreatedAt, ih]
      simp

/-- `Math.ceil` of a natural division, as the handler computes `totalPages`,
equals the rounded-up natural division. -/
theorem ceil_div_toNat (a b : Nat) (hb : 0 < b) :
    (⌈(a : ℚ) / (b : ℚ)⌉).toNat = (a + b - 1) / b := by
  have hbQ : (0 : ℚ) < (b : ℚ) := by exact_mod_cast hb
  have h1 : 1 ≤ a + b := by omega
  have hmod := Nat.div_add_mod (a + b - 1) b
  have hr := Nat.mod_lt (a + b - 1) hb
  have h2 : ((a + b - 1 : ℕ) : ℚ) = (a : ℚ) + b - 1 := by
    rw [Nat.cast_sub h1]
    push_cast
    ring
  have h3 := congrArg (fun n : ℕ => (n : ℚ)) hmod
  push_cast at h3
  rw [h2] at h3
  have hrq : (((a + b - 1) % b : ℕ) : ℚ) + 1 ≤ (b : ℚ) := by exact_mod_cast hr
  have hr0 : (0 : ℚ) ≤ (((a + b - 1) % b : ℕ) : ℚ) := by positivity
  have hceil : ⌈(a : ℚ) / (b : ℚ)⌉ = (((a + b - 1) / b : ℕ) : ℤ) := by
    rw [Int.ceil_eq_iff]
    constructor
    · rw [lt_div_iff₀ hbQ, Int.cast_natCast]
      nlinarith [h3, hrq, hr0]
    · rw [div_le_iff₀ hbQ, Int.cast_natCast]
      nlinarith [h3, hrq, hr0]
  rw [hceil]
  exact Int.toNat_natCast _

/-- The review-sum fold of the handlers equals the sum of the ratings. -/
theorem ratingSum_eq_sum (rs : List Review) :
    ratingSum rs = (rs.map (fun r => (r.rating : ℚ))).sum := by
  suffices h : ∀ (a : ℚ) (l : List Review),
      l.foldl (fun s r => s + (r.rating : ℚ)) a
        = a + (l.map (fun r => (r.rating : ℚ))).sum by
    simpa [ratingSum] using h 0 rs
  intro a l
  induction l generalizing a with
  | nil => simp
  | cons x xs ih =>
      rw [List.foldl_cons, ih, List.map_cons, List.sum_cons]
      ring

/-- C9: for a validated page N and limit L (1 ≤ N, 1 ≤ L ≤ 50) the listing
passes validation, returns at most L decorated books — precisely the window
that skips (N-1)·L records of the sorted collection — and reports
totalPages as the rounded-up quotient of totalBooks by the limit; at the
boundary, 25 books with limit 12 yield 3 pages and page 3 holds exactly one
record. -/
theorem listBooks_pagination
    (p l : Nat) (books : List Book) (reviews : List Review)
    (hp : 1 ≤ p) (hl1 : 1 ≤ l) (hl2 : l ≤ 50) :
    getBooksRoute (some p) (some l) books reviews
      = some (listBooks (some p) (some l) books reviews)
    ∧ (listBooks (some p) (some l) books reviews).books.length ≤ l
    ∧ (listBooks (some p) (some l) books reviews).books
        = (((sortByCreatedAtDesc books).drop ((p - 1) * l)).take l).map (withRating reviews)
    ∧ (listBooks (some p) (some l) books reviews).totalPages
        = (books.length + l - 1) / l
    ∧ (listBooks (some p) (some l) books reviews).totalBooks = books.length
    ∧ demoBooks.length = 25
    ∧ (listBooks (some 3) (some 12) demoBooks []).totalPages = 3
    ∧ (listBooks (some 3) (some 12) demoBooks []).books.length = 1 := by
  refine ⟨?_, ?_, rfl, ?_, rfl, by decide, ?_, ?_⟩
  · simp [getBooksRoute, hp, hl1, hl2]
  · show ((((sortByCreatedAtDesc books).drop ((p - 1) * l)).take l).map
        (withRating reviews)).length ≤ l
    rw [List.length_map, List.length_take]
    exact min_le_left _ _
  · exact ceil_div_toNat books.length l (by omega)
  · show (⌈(demoBooks.length : ℚ) / ((12 : ℕ) : ℚ)⌉).toNat = 3
    rw [ceil_div_toNat demoBooks.length 12 (by norm_num)]
    decide
  · decide

/-- C9 witness: the theorem applied at the 25-book boundary instance. -/
theorem listBooks_pagination_witness :
    (listBooks (some 3) (some 12) demoBooks []).books.length ≤ 12
    ∧ (listBooks (some 3) (some 12) demoBooks []).totalPages = 3
    ∧ (listBooks (some 3) (some 12) demoBooks []).books.length = 1 := by
  have h := listBooks_pagination 3 12 demoBooks [] (by decide) (by decide) (by decide)
  exact ⟨h.2.1, h.2.2.2.2.2.2.1, h.2.2.2.2.2.2.2⟩

/-- C10: for every book, the decoration shared by GET /api/books and
GET /api/books/:id reports reviewCount as the number of stored reviews of the
book, and averageRating as 0 when there are none and otherwise as the
arithmetic mean of the ratings rounded to one decimal place
(round of mean times ten, divided by ten); both routes return exactly this
decoration. -/
theorem rating_aggregate_correct (b : Book) (reviews : List Review) :
    (withRating reviews b).reviewCount
      = (reviews.filter (fun r => r.bookId == b.id)).length
    ∧ (withRating reviews b).averageRating
      = (if (reviews.filter (fun r => r.bookId == b.id)).length = 0 then 0
         else (jsRound ((((reviews.filter (fun r => r.bookId == b.id)).map
                  (fun r => (r.rating : ℚ))).sum
                / ((reviews.filter (fun r => r.bookId == b.id)).length : ℚ)) * 10) : ℚ) / 10)
    ∧ (∀ (bid : Nat) (books : List Book), getBookRoute bid books reviews
        = (books.find? (fun x => x.id == bid)).map (withRating reviews))
    ∧ (∀ (pageOpt limitOpt : Option Nat) (books : List Book),
        (listBooks pageOpt limitOpt books reviews).books
          = (((sortByCreatedAtDesc books).drop
                ((pageOpt.getD 1 - 1) * limitOpt.getD 5)).take (limitOpt.getD 5)).map
              (withRating reviews)) := by
  refine ⟨rfl, ?_, fun bid books => rfl, fun pageOpt limitOpt books => rfl⟩
  by_cases h : (reviews.filter (fun r => r.bookId == b.id)).length = 0
  · have hz : jsRound 0 = 0 := by norm_num [jsRound]
    simp [withRating, ratingAvg, h, hz]
  · have hgt : (reviews.filter (fun r => r.bookId == b.id)).length > 0 :=
      Nat.pos_of_ne_zero h
    simp [withRating, ratingAvg, hgt, ratingSum_eq_sum, h]

end BookReview
